import Mathlib

/-!
Verification of the toyMCP server (Node/Express/PostgreSQL JSON-RPC to-do
service) against its natural-language specification.

The development shallowly embeds the relevant source files:
* `src/mcp_methods.js` — the `todo.list` / `todo.add` / `todo.remove` /
  `mcp.discover` handlers (parameter validation, SQL effects);
* `src/mcp_router.js` (the variant carrying the non-object pre-check) —
  the `/rpc` dispatch pipeline built on `JSONRPCServer.receive`;
* `src/server.js` — the JSON `SyntaxError` middleware (ParseError replies);
* `src/auth/auth_router.js` — the passport `LocalStrategy` and `JwtStrategy`;
* `src/db/schema.sql` — the schema statements run by the initializer.

SQL state is modelled with explicit stores; `SERIAL` ids and
`CURRENT_TIMESTAMP` values are logical counters that grow with each insert.
-/

namespace ToyMCP

/-- JSON values as delivered by the Express JSON body parser. -/
inductive Json where
  | null : Json
  | bool : Bool → Json
  | num : Int → Json
  | str : String → Json
  | arr : List Json → Json
  | obj : List (String × Json) → Json
deriving Repr, Inhabited

/-- JavaScript member access `v.k`: `none` models `undefined` (member access
on a non-object value, or an absent key). -/
def member : Json → String → Option Json
  | Json.obj fs, k => fs.lookup k
  | _, _ => none

/-- JavaScript truthiness of a JSON value (`!v` is `!truthy v`). -/
def truthy : Json → Bool
  | Json.null => false
  | Json.bool b => b
  | Json.num n => n != 0
  | Json.str s => s != ""
  | Json.arr _ => true
  | Json.obj _ => true

/-- A row of the `todos` table: `id SERIAL`, `text TEXT`, `completed BOOLEAN
DEFAULT false`, `created_at TIMESTAMP DEFAULT CURRENT_TIMESTAMP`. The
timestamp is a logical counter. -/
structure Item where
  id : Nat
  text : String
  completed : Bool
  createdAt : Nat
deriving Repr, DecidableEq

/-- The `todos` table plus the generator state behind `SERIAL` and
`CURRENT_TIMESTAMP`: the next id to assign and the next timestamp. -/
structure TodoStore where
  rows : List Item
  nextId : Nat
  nextTime : Nat
deriving Repr, DecidableEq

/-- A freshly created database: no rows, `SERIAL` starts at 1. -/
def TodoStore.empty : TodoStore := ⟨[], 1, 0⟩

/-- Well-formedness maintained by the SQL engine: rows sit in insertion
order, ids and timestamps strictly increase along it, and the generators
dominate every stored value. -/
def StoreWF (st : TodoStore) : Prop :=
  st.rows.Pairwise (fun a b => a.id < b.id) ∧
  st.rows.Pairwise (fun a b => a.createdAt < b.createdAt) ∧
  (∀ it ∈ st.rows, it.id < st.nextId ∧ it.createdAt < st.nextTime)

/-- A JSON-RPC error object (`JSONRPCErrorException` carries these). -/
structure RpcError where
  code : Int
  message : String
deriving Repr, DecidableEq

def msgMissingText : String := "Missing required parameter: text"

def msgTextNonEmpty : String := "Parameter \"text\" must be a non-empty string"

def msgMissingId : String := "Missing required parameter: id"

def msgIdNumber : String := "Parameter \"id\" must be a number"

/-- `Todo item with ID ${id} not found` -/
def notFoundMsg (n : Int) : String :=
  "Todo item with ID " ++ toString n ++ " not found"

/-- JavaScript `String.prototype.trim`: strips leading and trailing
whitespace (structurally recursive so concrete inputs evaluate). -/
def jsTrim (s : String) : String :=
  String.mk (((s.data.dropWhile Char.isWhitespace).reverse.dropWhile
    Char.isWhitespace).reverse)

/-- The parameter validation of `todo.add`:
`if (!params || typeof params.text !== 'string' || params.text.trim() === '')`
throws `-32602`, choosing the message by
`!params || params.text === undefined`. On success it returns the raw text
(the insert trims it). -/
def todoAddCheck (params : Option Json) : Except RpcError String :=
  match params with
  | none => Except.error ⟨-32602, msgMissingText⟩
  | some p =>
    if truthy p = false then
      Except.error ⟨-32602, msgMissingText⟩
    else
      match member p "text" with
      | some (Json.str s) =>
        if jsTrim s = "" then Except.error ⟨-32602, msgTextNonEmpty⟩
        else Except.ok s
      | some _ => Except.error ⟨-32602, msgTextNonEmpty⟩
      | none => Except.error ⟨-32602, msgMissingText⟩

/-- `INSERT INTO todos(text) VALUES($1) RETURNING *` with `$1 = text.trim()`:
the engine assigns the next `SERIAL` id and the current timestamp and
defaults `completed` to `false`. -/
def insertTodo (text : String) (st : TodoStore) : Item × TodoStore :=
  (⟨st.nextId, jsTrim text, false, st.nextTime⟩,
   ⟨st.rows ++ [⟨st.nextId, jsTrim text, false, st.nextTime⟩],
    st.nextId + 1, st.nextTime + 1⟩)

/-- The `todo.add` handler with the database up. -/
def todoAdd (params : Option Json) (st : TodoStore) :
    Except RpcError (Item × TodoStore) :=
  match todoAddCheck params with
  | Except.error e => Except.error e
  | Except.ok s => Except.ok (insertTodo s st)

/-- The parameter validation of `todo.remove`:
`if (!params || typeof params.id !== 'number')` throws `-32602`, choosing the
message by `!params || params.id === undefined`. -/
def todoRemoveCheck (params : Option Json) : Except RpcError Int :=
  match params with
  | none => Except.error ⟨-32602, msgMissingId⟩
  | some p =>
    if truthy p = false then
      Except.error ⟨-32602, msgMissingId⟩
    else
      match member p "id" with
      | some (Json.num n) => Except.ok n
      | some _ => Except.error ⟨-32602, msgIdNumber⟩
      | none => Except.error ⟨-32602, msgMissingId⟩

/-- `DELETE FROM todos WHERE id = $1 RETURNING *`: deletes every matching
row; `result.rows[0]` is the first deleted row, `none` models
`result.rowCount === 0`. -/
def deleteTodo (n : Int) (st : TodoStore) : Option (Item × TodoStore) :=
  match st.rows.find? (fun it => (it.id : Int) == n) with
  | some it =>
    some (it, ⟨st.rows.filter (fun r => !((r.id : Int) == n)), st.nextId, st.nextTime⟩)
  | none => none

/-- The `todo.remove` handler with the database up: validation, then the
delete, throwing code 1001 when no row was deleted. -/
def todoRemove (params : Option Json) (st : TodoStore) :
    Except RpcError (Item × TodoStore) :=
  match todoRemoveCheck params with
  | Except.error e => Except.error e
  | Except.ok n =>
    match deleteTodo n st with
    | some r => Except.ok r
    | none => Except.error ⟨1001, notFoundMsg n⟩

/-- Insertion step of sorting rows by `created_at`. -/
def insertByCreated (it : Item) : List Item → List Item
  | [] => [it]
  | x :: xs =>
    if it.createdAt ≤ x.createdAt then it :: x :: xs
    else x :: insertByCreated it xs

/-- `ORDER BY created_at ASC` as an insertion sort. -/
def sortByCreated : List Item → List Item
  | [] => []
  | x :: xs => insertByCreated x (sortByCreated xs)

/-- The `todo.list` handler: `SELECT * FROM todos ORDER BY created_at ASC`. -/
def todoList (st : TodoStore) : List Item :=
  sortByCreated st.rows

/-- A row serialized the way `pg` hands it to the JSON-RPC layer. -/
def itemToJson (it : Item) : Json :=
  Json.obj [("id", Json.num it.id), ("text", Json.str it.text),
            ("completed", Json.bool it.completed),
            ("created_at", Json.num it.createdAt)]

/-- The discovery document returned by `mcp.discover` (static metadata, no
store access). -/
def discoverDoc : Json :=
  Json.obj
    [("mcp_version", Json.str "1.0.0"),
     ("name", Json.str "ToyMCP Todo Service"),
     ("description", Json.str "A simple To-Do list manager implementing MCP concepts."),
     ("methods", Json.arr
       [Json.obj [("name", Json.str "todo.list"),
                  ("description", Json.str "Lists all existing todo items, ordered by creation time."),
                  ("parameters", Json.arr [])],
        Json.obj [("name", Json.str "todo.add"),
                  ("description", Json.str "Adds a new todo item to the list."),
                  ("parameters", Json.arr
                    [Json.obj [("name", Json.str "text"),
                               ("type", Json.str "string"),
                               ("required", Json.bool true)]])],
        Json.obj [("name", Json.str "todo.remove"),
                  ("description", Json.str "Removes a todo item by its ID."),
                  ("parameters", Json.arr
                    [Json.obj [("name", Json.str "id"),
                               ("type", Json.str "number"),
                               ("required", Json.bool true)]])],
        Json.obj [("name", Json.str "mcp.discover"),
                  ("description", Json.str "Returns this discovery document describing the service capabilities."),
                  ("parameters", Json.arr [])]])]

/-- Availability of the backing store during a request: `down` carries the
driver's fault detail (e.g. a connection-refused message). -/
inductive DbAvail where
  | up : DbAvail
  | down : String → DbAvail
deriving Repr, DecidableEq

/-- Outcome of invoking a handler: a result value with the updated store, a
thrown `JSONRPCErrorException`, or a non-RPC exception carrying internal
fault detail. -/
inductive HandlerResult where
  | ok : Json → TodoStore → HandlerResult
  | rpcErr : RpcError → HandlerResult
  | fault : String → HandlerResult
deriving Repr

/-- The method names registered on the `JSONRPCServer` (the keys of the
`mcp_methods.js` export). -/
def registeredMethods : List String :=
  ["mcp.discover", "todo.list", "todo.add", "todo.remove"]

def methodNotFoundError : RpcError := ⟨-32601, "Method not found"⟩

/-- Method lookup and invocation inside `server.receive`. The lookup miss is
the library's MethodNotFound branch; each handler validates its parameters
before touching the store (so parameter errors surface even when the store
is down), and store access while the store is down raises the driver fault. -/
def runMethod (name : String) (params : Option Json) (db : DbAvail)
    (st : TodoStore) : HandlerResult :=
  if name = "mcp.discover" then HandlerResult.ok discoverDoc st
  else if name = "todo.list" then
    match db with
    | DbAvail.down d => HandlerResult.fault d
    | DbAvail.up => HandlerResult.ok (Json.arr ((todoList st).map itemToJson)) st
  else if name = "todo.add" then
    match todoAddCheck params with
    | Except.error e => HandlerResult.rpcErr e
    | Except.ok s =>
      match db with
      | DbAvail.down d => HandlerResult.fault d
      | DbAvail.up =>
        let r := insertTodo s st
        HandlerResult.ok (itemToJson r.fst) r.snd
  else if name = "todo.remove" then
    match todoRemoveCheck params with
    | Except.error e => HandlerResult.rpcErr e
    | Except.ok n =>
      match db with
      | DbAvail.down d => HandlerResult.fault d
      | DbAvail.up =>
        match deleteTodo n st with
        | some r => HandlerResult.ok (itemToJson r.fst) r.snd
        | none => HandlerResult.rpcErr ⟨1001, notFoundMsg n⟩
  else HandlerResult.rpcErr methodNotFoundError

/-- A correlation id that can appear on a response. -/
inductive RpcId where
  | num : Int → RpcId
  | str : String → RpcId
  | null : RpcId
deriving Repr, DecidableEq

/-- A JSON-RPC response envelope (`jsonrpc: "2.0"` implicit): exactly one of
`result` and `error` is populated by the code paths below. -/
structure RpcResponse where
  id : RpcId
  result : Option Json
  error : Option RpcError
deriving Repr

/-- What the HTTP layer sends back for one `/rpc` request: a status code and
an optional JSON-RPC envelope. -/
structure HttpReply where
  status : Nat
  body : Option RpcResponse
deriving Repr

/-- The correlation id of a request object: a string or number id is kept;
an absent or `null` (or non-id-typed) `id` member marks a notification. -/
def getId (j : Json) : Option RpcId :=
  match member j "id" with
  | some (Json.num n) => some (RpcId.num n)
  | some (Json.str s) => some (RpcId.str s)
  | _ => none

/-- Modelled from the spec: the library's envelope-shape test inside
`server.receive` (its source is a dependency, not in this repository).
Faithful to the data model "protocol_tag: literal 2.0, method: string" and to
step 2 of the dispatcher algorithm (missing `method` or wrong type for
`method` makes the envelope invalid); the integration test pins the object
with sole member foo paired to bar to InvalidRequest with id null. -/
def shapedMethod (j : Json) : Option String :=
  match member j "jsonrpc", member j "method" with
  | some (Json.str v), some (Json.str m) => if v = "2.0" then some m else none
  | _, _ => none

/-- The reply sent by the JSON `SyntaxError` middleware in `server.js` and by
the non-object pre-check in `mcp_router.js`: HTTP 200, code -32700, id null. -/
def parseErrorReply : HttpReply :=
  ⟨200, some ⟨RpcId.null, none, some ⟨-32700, "Parse error: Invalid JSON received."⟩⟩⟩

/-- The library's InvalidRequest reply: HTTP 200, code -32600, id null. -/
def invalidRequestReply : HttpReply :=
  ⟨200, some ⟨RpcId.null, none, some ⟨-32600, "Invalid Request"⟩⟩⟩

/-- Modelled from the spec: the generic internal error the dispatcher folds
unhandled handler faults into ("caught at the dispatcher boundary and folded
into a generic internal-error code so no internal fault detail or stack
information ever reaches the caller"). The message is a fixed constant. -/
def internalError : RpcError := ⟨-32603, "Internal error"⟩

/-- Dispatch of a parsed request object (after the router's pre-check):
envelope-shape validation, method lookup and invocation, then response
assembly. Modelled from the spec where the `json-rpc-2.0` library decides:
a notification (no usable `id`) gets a bodyless 204 acknowledgement
regardless of outcome while keeping the handler's store effects; an
identified request gets HTTP 200 with a result or error envelope echoing its
id; handler faults become the generic internal error. -/
def dispatchObj (j : Json) (db : DbAvail) (st : TodoStore) : HttpReply × TodoStore :=
  match shapedMethod j with
  | none => (invalidRequestReply, st)
  | some m =>
    match getId j, runMethod m (member j "params") db st with
    | none, HandlerResult.ok _ st2 => (⟨204, none⟩, st2)
    | none, HandlerResult.rpcErr _ => (⟨204, none⟩, st)
    | none, HandlerResult.fault _ => (⟨204, none⟩, st)
    | some i, HandlerResult.ok v st2 => (⟨200, some ⟨i, some v, none⟩⟩, st2)
    | some i, HandlerResult.rpcErr e => (⟨200, some ⟨i, none, some e⟩⟩, st)
    | some i, HandlerResult.fault _ => (⟨200, some ⟨i, none, some internalError⟩⟩, st)

/-- The request body as it reaches the routing layer: either raw bytes that
were not valid JSON (the body parser threw a `SyntaxError`) or a parsed
JSON value. -/
inductive RawBody where
  | invalid : RawBody
  | parsed : Json → RawBody

/-- The authenticated `/rpc` POST pipeline after the token gate: the
`SyntaxError` middleware answers unparseable bodies with ParseError; the
router's pre-check answers parsed non-objects (null, arrays, primitives)
with the same ParseError reply; objects go to dispatch. -/
def rpcPost (body : RawBody) (db : DbAvail) (st : TodoStore) : HttpReply × TodoStore :=
  match body with
  | RawBody.invalid => (parseErrorReply, st)
  | RawBody.parsed j =>
    match j with
    | Json.obj fs => dispatchObj (Json.obj fs) db st
    | _ => (parseErrorReply, st)

/-- A row of the `users` table: `id SERIAL`, `username UNIQUE`,
`password_hash`. -/
structure UserRow where
  id : Nat
  username : String
  passwordHash : String
deriving Repr, DecidableEq

/-- The claims a JWT carries: `jwt.sign` puts the user id and username in
the payload. -/
structure JwtPayload where
  userId : Nat
  username : String
deriving Repr, DecidableEq

/-- A bearer token as issued by `jwt.sign(payload, secret, expiresIn)`:
the payload, an expiry instant, and the key it was signed with (an abstract
unforgeable signature: verification succeeds exactly against that key). -/
structure JwtToken where
  payload : JwtPayload
  exp : Nat
  signedWith : String
deriving Repr, DecidableEq

/-- Signature-and-expiry verification performed by `passport-jwt` with
`secretOrKey`: the token must be signed with the configured secret and be
unexpired at verification time. -/
def verifyJwt (t : JwtToken) (secret : String) (now : Nat) : Bool :=
  t.signedWith == secret && now < t.exp

def findUserById (users : List UserRow) (i : Nat) : Option UserRow :=
  users.find? (fun u => u.id == i)

def findUserByName (users : List UserRow) (name : String) : Option UserRow :=
  users.find? (fun u => u.username == name)

/-- The `JwtStrategy` of `auth_router.js`: a missing or unverifiable bearer
token fails; a verified token is then resolved against the `users` table
(`SELECT id, username FROM users WHERE id = $1`) and fails when the user no
longer exists. `some` is the identity attached to the request. -/
def jwtStrategy (users : List UserRow) (secret : String) (now : Nat)
    (tok : Option JwtToken) : Option JwtPayload :=
  match tok with
  | none => none
  | some t =>
    if verifyJwt t secret now then
      match findUserById users t.payload.userId with
      | some u => some ⟨u.id, u.username⟩
      | none => none
    else none

/-- Stateless acceptance as the claim words it (for comparison with
`jwtStrategy`): a bearer token is accepted if and only if its signature
verifies against the signing key and it is unexpired — no other server-side
state consulted. -/
def statelessAccepts (tok : Option JwtToken) (secret : String) (now : Nat) : Bool :=
  match tok with
  | none => false
  | some t => verifyJwt t secret now

/-- Modelled from the spec: the server mounts the JWT gate in front of the
`/rpc` dispatcher ("reject with 401 before RequestDispatcher ever sees
the payload"); the server file wiring `passport.authenticate` onto `/rpc`
is not among the sources, only its integration tests and README. A failed
gate answers 401 with no envelope and the dispatcher never runs. -/
def rpcEndpoint (users : List UserRow) (secret : String) (now : Nat)
    (tok : Option JwtToken) (body : RawBody) (db : DbAvail) (st : TodoStore) :
    HttpReply × TodoStore :=
  match jwtStrategy users secret now tok with
  | none => (⟨401, none⟩, st)
  | some _ => rpcPost body db st

def loginFailMsg : String := "Incorrect username or password."

/-- The `LocalStrategy` of `auth_router.js`: look the user up by username
(`SELECT id, username, password_hash FROM users WHERE username = $1`); an
unknown username and a failed `bcrypt.compare` both fail with the same
message. The hash comparison is passed in explicitly. -/
def localStrategy (users : List UserRow) (compare : String → String → Bool)
    (username password : String) : Except String JwtPayload :=
  match findUserByName users username with
  | none => Except.error loginFailMsg
  | some u =>
    if compare password u.passwordHash then Except.ok ⟨u.id, u.username⟩
    else Except.error loginFailMsg

/-- What `POST /auth/login` sends back: status, message, and the
authenticated user (with a token) on success. -/
structure LoginReply where
  status : Nat
  message : String
  user : Option JwtPayload
deriving Repr, DecidableEq

/-- The `/login` route: strategy failure becomes
`401 with the strategy's message`; success becomes 200. -/
def loginRoute (users : List UserRow) (compare : String → String → Bool)
    (username password : String) : LoginReply :=
  match localStrategy users compare username password with
  | Except.error m => ⟨401, m, none⟩
  | Except.ok u => ⟨200, "Login successful", some u⟩

/-- The relational schema state seen by the initializer: each table either
absent or holding its rows. -/
structure DbSchemaState where
  todosTable : Option (List Item)
  usersTable : Option (List UserRow)
deriving Repr, DecidableEq

/-- The statements of `schema.sql`, in file order. -/
inductive SchemaStmt where
  | dropTodos : SchemaStmt
  | dropUsers : SchemaStmt
  | createUsers : SchemaStmt
  | createTodos : SchemaStmt
  | createIndexUsersUsername : SchemaStmt
  | createIndexTodosCreatedAt : SchemaStmt
deriving Repr, DecidableEq

/-- Effect of one schema statement: `DROP TABLE IF EXISTS ... CASCADE`
removes the table with its rows; `CREATE TABLE IF NOT EXISTS` creates an
empty table only when absent; index creation does not touch rows. -/
def execStmt (db : DbSchemaState) : SchemaStmt → DbSchemaState
  | SchemaStmt.dropTodos => { db with todosTable := none }
  | SchemaStmt.dropUsers => { db with usersTable := none }
  | SchemaStmt.createUsers =>
    match db.usersTable with
    | some _ => db
    | none => { db with usersTable := some [] }
  | SchemaStmt.createTodos =>
    match db.todosTable with
    | some _ => db
    | none => { db with todosTable := some [] }
  | SchemaStmt.createIndexUsersUsername => db
  | SchemaStmt.createIndexTodosCreatedAt => db

/-- The statement list of `schema.sql`: the two `DROP TABLE IF EXISTS ...
CASCADE` lines first, then the conditional creations, then the indexes. -/
def schemaStatements : List SchemaStmt :=
  [SchemaStmt.dropTodos, SchemaStmt.dropUsers,
   SchemaStmt.createUsers, SchemaStmt.createTodos,
   SchemaStmt.createIndexUsersUsername, SchemaStmt.createIndexTodosCreatedAt]

/-- One run of the schema initialization: each statement of `schema.sql`
executed and awaited in sequence (`initializeDatabase`). -/
def ensureSchema (db : DbSchemaState) : DbSchemaState :=
  schemaStatements.foldl execStmt db

/-- Whether a JSON value is a plain object (what survives the router's
pre-check: `typeof x === 'object' && x !== null && !Array.isArray(x)`). -/
def Json.isObj : Json → Bool
  | Json.obj _ => true
  | _ => false

/-- The error code carried by a reply's envelope, when there is one. -/
def replyErrorCode (r : HttpReply) : Option Int :=
  r.body.bind (fun b => b.error.map RpcError.code)

/-- The input class the claim calls valid for `item.add`: a params value
carrying a string member `text` whose trim is non-empty. -/
def validAddText (params : Option Json) : Option String :=
  match params with
  | none => none
  | some p =>
    match member p "text" with
    | some (Json.str s) => if jsTrim s = "" then none else some s
    | _ => none

/-- The input class the claim calls valid for `item.remove`: a params value
carrying a numeric member `id`. -/
def validRemoveId (params : Option Json) : Option Int :=
  match params with
  | none => none
  | some p =>
    match member p "id" with
    | some (Json.num n) => some n
    | _ => none

/-! ## Helper lemmas -/

theorem truthy_of_obj (fs : List (String × Json)) : truthy (Json.obj fs) = true := rfl

/-- Non-objects have no members. -/
theorem member_eq_none_of_not_obj (p : Json) (k : String) (h : p.isObj = false) :
    member p k = none := by
  cases p <;> simp [Json.isObj] at h ⊢ <;> rfl

/-- `todoAddCheck` succeeds exactly on the claim's valid inputs, with the
raw (untrimmed) text. -/
theorem todoAddCheck_ok_iff (params : Option Json) (s : String) :
    todoAddCheck params = Except.ok s ↔ validAddText params = some s := by
  cases params with
  | none => simp [todoAddCheck, validAddText]
  | some p =>
    cases p with
    | obj fs =>
      simp only [todoAddCheck, validAddText, truthy_of_obj]
      cases member (Json.obj fs) "text" with
      | none => simp
      | some v =>
        cases v <;> simp_all
        split <;> simp_all
    | null => simp [todoAddCheck, validAddText, truthy, member]
    | bool b => cases b <;> simp [todoAddCheck, validAddText, truthy, member]
    | num n =>
      by_cases h : n = 0 <;> simp [todoAddCheck, validAddText, truthy, member, h]
    | str t =>
      by_cases h : t = "" <;> simp [todoAddCheck, validAddText, truthy, member, h]
    | arr xs => simp [todoAddCheck, validAddText, truthy, member]

/-- `todoAddCheck` fails only with code -32602. -/
theorem todoAddCheck_error_code (params : Option Json) (e : RpcError)
    (h : todoAddCheck params = Except.error e) : e.code = -32602 := by
  unfold todoAddCheck at h
  repeat' split at h
  all_goals cases h
  all_goals rfl

/-- `todoRemoveCheck` succeeds exactly on the claim's valid inputs. -/
theorem todoRemoveCheck_ok_iff (params : Option Json) (n : Int) :
    todoRemoveCheck params = Except.ok n ↔ validRemoveId params = some n := by
  cases params with
  | none => simp [todoRemoveCheck, validRemoveId]
  | some p =>
    cases p with
    | obj fs =>
      simp only [todoRemoveCheck, validRemoveId, truthy_of_obj]
      cases member (Json.obj fs) "id" with
      | none => simp
      | some v => cases v <;> simp_all
    | null => simp [todoRemoveCheck, validRemoveId, truthy, member]
    | bool b => cases b <;> simp [todoRemoveCheck, validRemoveId, truthy, member]
    | num m =>
      by_cases h : m = 0 <;> simp [todoRemoveCheck, validRemoveId, truthy, member, h]
    | str t =>
      by_cases h : t = "" <;> simp [todoRemoveCheck, validRemoveId, truthy, member, h]
    | arr xs => simp [todoRemoveCheck, validRemoveId, truthy, member]

/-- `todoRemoveCheck` fails only with code -32602. -/
theorem todoRemoveCheck_error_code (params : Option Json) (e : RpcError)
    (h : todoRemoveCheck params = Except.error e) : e.code = -32602 := by
  unfold todoRemoveCheck at h
  repeat' split at h
  all_goals cases h
  all_goals rfl

/-- Sorting by `created_at` leaves a list already in strictly increasing
creation order untouched. -/
theorem sortByCreated_eq_self (l : List Item)
    (h : l.Pairwise (fun a b => a.createdAt < b.createdAt)) :
    sortByCreated l = l := by
  induction l with
  | nil => rfl
  | cons x xs ih =>
    rcases List.pairwise_cons.mp h with ⟨hx, hxs⟩
    rw [sortByCreated, ih hxs]
    cases xs with
    | nil => rfl
    | cons y ys =>
      have hle : x.createdAt ≤ y.createdAt := le_of_lt (hx y (by simp))
      simp [insertByCreated, hle]

/-- In a row list with strictly increasing ids, a successful
`DELETE ... WHERE id = $1` removes exactly the found row: the found row is a
member carrying the requested id, and the surviving list is one shorter. -/
theorem delete_exact (l : List Item) (n : Int) (it : Item)
    (hpw : l.Pairwise (fun a b => a.id < b.id))
    (hfind : l.find? (fun r => (r.id : Int) == n) = some it) :
    it ∈ l ∧ (it.id : Int) = n ∧
    (l.filter (fun r => !((r.id : Int) == n))).length + 1 = l.length := by
  induction l with
  | nil => simp at hfind
  | cons x xs ih =>
    rcases List.pairwise_cons.mp hpw with ⟨hx, hxs⟩
    by_cases hpx : ((x.id : Int) == n) = true
    · rw [List.find?_cons_of_pos (p := fun (r : Item) => (r.id : Int) == n) _ hpx] at hfind
      injection hfind with hfx
      subst hfx
      have hxn : (x.id : Int) = n := by simpa using hpx
      have hrest : xs.filter (fun r => !((r.id : Int) == n)) = xs := by
        apply List.filter_eq_self.mpr
        intro r hr
        have : x.id < r.id := hx r hr
        simp only [Bool.not_eq_true']
        simp only [beq_eq_false_iff_ne, ne_eq]
        omega
      refine ⟨by simp, hxn, ?_⟩
      simp [List.filter_cons, hpx, hrest]
    · rw [List.find?_cons_of_neg (p := fun (r : Item) => (r.id : Int) == n) _ hpx] at hfind
      rcases ih hxs hfind with ⟨hmem, hn, hlen⟩
      refine ⟨by simp [hmem], hn, ?_⟩
      have hkeep : (!((x.id : Int) == n)) = true := by simpa using hpx
      simp only [List.filter_cons, hkeep, if_true, List.length_cons]
      omega

/-- After the delete filtered out id `n`, no surviving row carries it. -/
theorem find?_after_filter (l : List Item) (n : Int) :
    (l.filter (fun r => !((r.id : Int) == n))).find?
      (fun r => (r.id : Int) == n) = none := by
  apply List.find?_eq_none.mpr
  intro x hx
  have hp := (List.mem_filter.mp hx).2
  simp only [Bool.not_eq_true'] at hp
  simp [hp]

/-- Membership in the surviving rows of a delete. -/
theorem mem_filter_delete (l : List Item) (n : Int) (r : Item) :
    r ∈ l.filter (fun x => !((x.id : Int) == n)) ↔ r ∈ l ∧ (r.id : Int) ≠ n := by
  rw [List.mem_filter]
  simp

/-- Rows with pairwise increasing ids are determined by their id. -/
theorem id_injective_on (l : List Item)
    (hpw : l.Pairwise (fun a b => a.id < b.id)) :
    ∀ r ∈ l, ∀ s ∈ l, r.id = s.id → r = s := by
  induction l with
  | nil => simp
  | cons x xs ih =>
    rcases List.pairwise_cons.mp hpw with ⟨hx, hxs⟩
    intro r hr s hs heq
    rcases List.mem_cons.mp hr with hr | hr <;>
      rcases List.mem_cons.mp hs with hs | hs
    · rw [hr, hs]
    · exfalso; have := hx s hs; rw [hr] at heq; omega
    · exfalso; have := hx r hr; rw [hs] at heq; omega
    · exact ih hxs r hr s hs heq

/-- The fresh store is well-formed. -/
theorem storeWF_empty : StoreWF TodoStore.empty := by
  refine ⟨List.Pairwise.nil, List.Pairwise.nil, ?_⟩
  intro it h
  simp [TodoStore.empty] at h

/-- An insert preserves well-formedness. -/
theorem storeWF_insert (st : TodoStore) (hwf : StoreWF st) (s : String) :
    StoreWF (insertTodo s st).snd := by
  rcases hwf with ⟨hid, hcr, hdom⟩
  unfold insertTodo StoreWF
  dsimp only
  refine ⟨?_, ?_, ?_⟩
  · apply List.pairwise_append.mpr
    refine ⟨hid, List.pairwise_singleton _ _, ?_⟩
    intro a ha b hb
    rcases List.mem_singleton.mp hb with rfl
    exact (hdom a ha).1
  · apply List.pairwise_append.mpr
    refine ⟨hcr, List.pairwise_singleton _ _, ?_⟩
    intro a ha b hb
    rcases List.mem_singleton.mp hb with rfl
    exact (hdom a ha).2
  · intro it hmem
    rcases List.mem_append.mp hmem with h | h
    · rcases hdom it h with ⟨h1, h2⟩
      exact ⟨by omega, by omega⟩
    · rcases List.mem_singleton.mp h with rfl
      exact ⟨by simp, by simp⟩

/-- A delete preserves well-formedness. -/
theorem storeWF_delete (st : TodoStore) (hwf : StoreWF st) (n : Int)
    (it : Item) (st2 : TodoStore) (h : deleteTodo n st = some (it, st2)) :
    StoreWF st2 := by
  rcases hwf with ⟨hid, hcr, hdom⟩
  unfold deleteTodo at h
  split at h
  · cases h
    refine ⟨hid.sublist (List.filter_sublist _), hcr.sublist (List.filter_sublist _), ?_⟩
    intro r hr
    exact hdom r (List.mem_of_mem_filter hr)
  · cases h

/-- Anatomy of a successful `todo.remove`: the returned item was stored and
carries the requested id, the validation succeeded on exactly that id, the
survivors are the rows with a different id (generators untouched), the
first matching row was the returned one, and the surviving store is
well-formed. -/
theorem todoRemove_ok_decomp (params : Option Json) (st : TodoStore)
    (hwf : StoreWF st) (it : Item) (st2 : TodoStore)
    (hok : todoRemove params st = Except.ok (it, st2)) :
    it ∈ st.rows ∧
    todoRemoveCheck params = Except.ok (it.id : Int) ∧
    st.rows.find? (fun r => (r.id : Int) == (it.id : Int)) = some it ∧
    st2 = ⟨st.rows.filter (fun r => !((r.id : Int) == (it.id : Int))),
           st.nextId, st.nextTime⟩ ∧
    StoreWF st2 := by
  cases hc : todoRemoveCheck params with
  | error e => rw [todoRemove, hc] at hok; cases hok
  | ok n =>
    rw [todoRemove, hc] at hok
    dsimp only at hok
    cases hd : deleteTodo n st with
    | none => rw [hd] at hok; cases hok
    | some r =>
      rw [hd] at hok
      dsimp only at hok
      injection hok with hr
      subst hr
      have hd2 := hd
      unfold deleteTodo at hd
      split at hd
      case h_1 x hf =>
        injection hd with hpair
        obtain ⟨hx, hst2⟩ := Prod.mk.inj hpair
        subst hx
        have hpred : ((x.id : Int) == n) = true := by
          simpa using List.find?_some hf
        have hn : n = (x.id : Int) := by
          have := beq_iff_eq.mp hpred
          omega
        subst hn
        exact ⟨List.mem_of_find?_eq_some hf, rfl, hf, hst2.symm,
               storeWF_delete st hwf _ x st2 hd2⟩
      case h_2 => cases hd

/-! ## Claim theorems -/

/-- C4: `item.add` raises InvalidParams (-32602) if and only if its params
value is missing, its `text` member is missing or not a string, or the text
trims to the empty string; on every other input it creates and returns an
item whose `text` equals the trimmed input and whose server-assigned id is
unique and strictly greater than the id of every previously stored item. -/
theorem todo_add_correct (params : Option Json) (st : TodoStore)
    (hwf : StoreWF st) :
    ((∃ e, todoAdd params st = Except.error e ∧ e.code = -32602) ↔
      validAddText params = none) ∧
    (∀ it st2, todoAdd params st = Except.ok (it, st2) →
      (∃ s, validAddText params = some s ∧ it.text = jsTrim s) ∧
      (∀ r ∈ st.rows, r.id < it.id) ∧
      st2.rows = st.rows ++ [it] ∧ StoreWF st2) := by
  constructor
  · constructor
    · rintro ⟨e, he, -⟩
      cases hv : validAddText params with
      | none => rfl
      | some s =>
        exfalso
        have hok := (todoAddCheck_ok_iff params s).mpr hv
        rw [todoAdd, hok] at he
        cases he
    · intro hv
      cases hc : todoAddCheck params with
      | error e =>
        exact ⟨e, by rw [todoAdd, hc], todoAddCheck_error_code params e hc⟩
      | ok s =>
        exfalso
        rw [(todoAddCheck_ok_iff params s).mp hc] at hv
        cases hv
  · intro it st2 hok
    cases hc : todoAddCheck params with
    | error e => rw [todoAdd, hc] at hok; cases hok
    | ok s =>
      rw [todoAdd, hc] at hok
      injection hok with hpair
      rw [insertTodo] at hpair
      obtain ⟨hx, hst2⟩ := Prod.mk.inj hpair
      refine ⟨⟨s, (todoAddCheck_ok_iff params s).mp hc, by rw [← hx]⟩, ?_, ?_, ?_⟩
      · intro r hr
        rw [← hx]
        exact (hwf.2.2 r hr).1
      · rw [← hst2, ← hx]
      · have := storeWF_insert st hwf s
        rw [insertTodo] at this
        rw [← hst2]
        exact this

/-- C4 witness: adding text that trims to "buy milk" to the fresh store
returns an item carrying exactly that trimmed text. -/
theorem todo_add_correct_witness :
    ∃ s, validAddText (some (Json.obj [("text", Json.str " buy milk ")])) = some s ∧
      (Item.mk 1 "buy milk" false 0).text = jsTrim s := by
  have h := todo_add_correct (some (Json.obj [("text", Json.str " buy milk ")]))
    TodoStore.empty storeWF_empty
  exact (h.2 ⟨1, "buy milk", false, 0⟩ ⟨[⟨1, "buy milk", false, 0⟩], 2, 1⟩ rfl).1

/-- C5: `item.remove` raises InvalidParams (-32602) if and only if its
params value is missing or its `id` member is missing or not a number;
given a numeric id it raises NotFound (1001) if and only if no stored row
carries that id, and otherwise deletes exactly the carrying row and returns
it — so an immediate second remove with the same params answers NotFound. -/
theorem todo_remove_correct (params : Option Json) (st : TodoStore)
    (hwf : StoreWF st) :
    ((∃ e, todoRemove params st = Except.error e ∧ e.code = -32602) ↔
      validRemoveId params = none) ∧
    (∀ n, validRemoveId params = some n →
      (todoRemove params st = Except.error ⟨1001, notFoundMsg n⟩ ↔
        ∀ r ∈ st.rows, (r.id : Int) ≠ n)) ∧
    (∀ it st2, todoRemove params st = Except.ok (it, st2) →
      it ∈ st.rows ∧ validRemoveId params = some (it.id : Int) ∧
      st2.rows.length + 1 = st.rows.length ∧
      (∀ r, r ∈ st2.rows ↔ r ∈ st.rows ∧ (r.id : Int) ≠ (it.id : Int)) ∧
      todoRemove params st2 = Except.error ⟨1001, notFoundMsg (it.id : Int)⟩) := by
  refine ⟨⟨?_, ?_⟩, ?_, ?_⟩
  · rintro ⟨e, he, hcode⟩
    cases hv : validRemoveId params with
    | none => rfl
    | some n =>
      exfalso
      have hok := (todoRemoveCheck_ok_iff params n).mpr hv
      rw [todoRemove, hok] at he
      dsimp only at he
      cases hd : deleteTodo n st with
      | some r => rw [hd] at he; cases he
      | none =>
        rw [hd] at he
        injection he with he2
        rw [← he2] at hcode
        simp at hcode
  · intro hv
    cases hc : todoRemoveCheck params with
    | error e =>
      exact ⟨e, by rw [todoRemove, hc], todoRemoveCheck_error_code params e hc⟩
    | ok n =>
      exfalso
      rw [(todoRemoveCheck_ok_iff params n).mp hc] at hv
      cases hv
  · intro n hv
    have hok := (todoRemoveCheck_ok_iff params n).mpr hv
    rw [todoRemove, hok]
    dsimp only
    cases hd : deleteTodo n st with
    | some r =>
      constructor
      · intro he; cases he
      · intro hall
        exfalso
        have hd2 := hd
        unfold deleteTodo at hd2
        split at hd2
        case h_1 x hf =>
          have hpred : ((x.id : Int) == n) = true := by
            simpa using List.find?_some hf
          exact hall x (List.mem_of_find?_eq_some hf) (by simpa using hpred)
        case h_2 => cases hd2
    | none =>
      constructor
      · intro _ r hr hrn
        have hd2 := hd
        unfold deleteTodo at hd2
        split at hd2
        case h_1 => cases hd2
        case h_2 hf =>
          have := List.find?_eq_none.mp hf r hr
          simp at this
          exact this hrn
      · intro _
        rfl
  · intro it st2 hok
    obtain ⟨hmem, hcheck, hfind, hst2, hwf2⟩ :=
      todoRemove_ok_decomp params st hwf it st2 hok
    obtain ⟨-, -, hlen⟩ := delete_exact st.rows (it.id : Int) it hwf.1 hfind
    refine ⟨hmem, (todoRemoveCheck_ok_iff params _).mp hcheck, ?_, ?_, ?_⟩
    · rw [hst2]
      exact hlen
    · intro r
      rw [hst2]
      exact mem_filter_delete st.rows (it.id : Int) r
    · rw [todoRemove, hcheck]
      dsimp only
      have : deleteTodo (it.id : Int) st2 = none := by
        unfold deleteTodo
        rw [hst2]
        dsimp only
        rw [find?_after_filter st.rows (it.id : Int)]
      rw [this]

/-- C5 witness: removing id 1 from a one-row store returns that row; the
second remove with the same params answers NotFound 1001. -/
theorem todo_remove_correct_witness :
    Item.mk 1 "a" false 0 ∈ (TodoStore.mk [⟨1, "a", false, 0⟩] 2 1).rows ∧
    todoRemove (some (Json.obj [("id", Json.num 1)])) (TodoStore.mk [] 2 1)
      = Except.error ⟨1001, notFoundMsg 1⟩ := by
  have hwf : StoreWF ⟨[⟨1, "a", false, 0⟩], 2, 1⟩ := by
    refine ⟨?_, ?_, ?_⟩ <;> simp
  have h := todo_remove_correct (some (Json.obj [("id", Json.num 1)]))
    ⟨[⟨1, "a", false, 0⟩], 2, 1⟩ hwf
  have hres := h.2.2 ⟨1, "a", false, 0⟩ ⟨[], 2, 1⟩ rfl
  exact ⟨hres.1, hres.2.2.2.2⟩

/-- C6: `item.list` returns exactly the stored rows, ordered by creation
(oldest first); after a successful remove the listing excludes the removed
item and is exactly one shorter. -/
theorem todo_list_correct (st : TodoStore) (hwf : StoreWF st) :
    todoList st = st.rows ∧
    (todoList st).Pairwise (fun a b => a.createdAt < b.createdAt) ∧
    (∀ params it st2, todoRemove params st = Except.ok (it, st2) →
      (todoList st2).length + 1 = (todoList st).length ∧
      it ∉ todoList st2 ∧
      (∀ r, r ∈ todoList st2 ↔ r ∈ todoList st ∧ r ≠ it)) := by
  have heq : todoList st = st.rows := sortByCreated_eq_self st.rows hwf.2.1
  refine ⟨heq, by rw [heq]; exact hwf.2.1, ?_⟩
  intro params it st2 hok
  obtain ⟨hmem, hcheck, hfind, hst2, hwf2⟩ :=
    todoRemove_ok_decomp params st hwf it st2 hok
  obtain ⟨-, -, hlen⟩ := delete_exact st.rows (it.id : Int) it hwf.1 hfind
  have heq2 : todoList st2 = st2.rows := sortByCreated_eq_self st2.rows hwf2.2.1
  have hmemiff : ∀ r, r ∈ todoList st2 ↔ r ∈ todoList st ∧ r ≠ it := by
    intro r
    rw [heq, heq2, hst2]
    rw [mem_filter_delete st.rows (it.id : Int) r]
    constructor
    · rintro ⟨hr, hne⟩
      refine ⟨hr, ?_⟩
      intro hcontr
      rw [hcontr] at hne
      exact hne rfl
    · rintro ⟨hr, hne⟩
      refine ⟨hr, ?_⟩
      intro hid
      exact hne (id_injective_on st.rows hwf.1 r hr it hmem (by omega))
  refine ⟨?_, ?_, hmemiff⟩
  · rw [heq, heq2, hst2]
    exact hlen
  · intro hcontr
    exact ((hmemiff it).mp hcontr).2 rfl

/-- C2 counterexample: an authenticated, parseable array payload is
answered with ParseError -32700 (the router's non-object pre-check), not
InvalidRequest -32600 as the claim requires for an array where an object is
required. -/
theorem array_payload_gets_parse_error_not_invalid_request :
    replyErrorCode (rpcPost (RawBody.parsed (Json.arr [])) DbAvail.up TodoStore.empty).fst
      = some (-32700) ∧
    replyErrorCode (rpcPost (RawBody.parsed (Json.arr [])) DbAvail.up TodoStore.empty).fst
      ≠ some (-32600) := by
  refine ⟨rfl, ?_⟩
  intro h
  rw [show replyErrorCode (rpcPost (RawBody.parsed (Json.arr [])) DbAvail.up
      TodoStore.empty).fst = some (-32700) from rfl] at h
  simp at h

/-- C2 (amended): with a valid token, error precedence at `/rpc` is:
unparseable bytes and parsed non-objects (null, arrays, primitives) get
ParseError -32700 with id null; parsed objects that are not JSON-RPC shaped
get InvalidRequest -32600 with id null; well-shaped requests naming an
unregistered method get MethodNotFound -32601 echoing the request id; each
as an HTTP 200 envelope, with the store untouched. -/
theorem rpc_error_classification (db : DbAvail) (st : TodoStore) :
    rpcPost RawBody.invalid db st = (parseErrorReply, st) ∧
    (∀ j : Json, j.isObj = false →
      rpcPost (RawBody.parsed j) db st = (parseErrorReply, st)) ∧
    (∀ j : Json, shapedMethod j = none →
      dispatchObj j db st = (invalidRequestReply, st)) ∧
    (∀ j m i, shapedMethod j = some m → m ∉ registeredMethods →
      getId j = some i →
      dispatchObj j db st =
        (⟨200, some ⟨i, none, some methodNotFoundError⟩⟩, st)) := by
  refine ⟨rfl, ?_, ?_, ?_⟩
  · intro j h
    cases j <;> first | rfl | simp [Json.isObj] at h
  · intro j hsh
    unfold dispatchObj
    rw [hsh]
  · intro j m i hm hreg hid
    simp only [registeredMethods, List.mem_cons, List.not_mem_nil, or_false,
      not_or] at hreg
    obtain ⟨hr1, hr2, hr3, hr4⟩ := hreg
    unfold dispatchObj
    rw [hm, hid]
    dsimp only
    unfold runMethod
    rw [if_neg hr1, if_neg hr2, if_neg hr3, if_neg hr4]

/-- C2 witness: a numeric payload and an object lacking `method` get
ParseError and InvalidRequest respectively, and an unknown method echoes
id 7 with MethodNotFound. -/
theorem rpc_error_classification_witness :
    rpcPost (RawBody.parsed (Json.num 5)) DbAvail.up TodoStore.empty
      = (parseErrorReply, TodoStore.empty) ∧
    dispatchObj (Json.obj [("foo", Json.str "bar")]) DbAvail.up TodoStore.empty
      = (invalidRequestReply, TodoStore.empty) ∧
    dispatchObj (Json.obj [("jsonrpc", Json.str "2.0"),
        ("method", Json.str "item.nope"), ("id", Json.num 7)])
        DbAvail.up TodoStore.empty
      = (⟨200, some ⟨RpcId.num 7, none, some methodNotFoundError⟩⟩,
         TodoStore.empty) := by
  have h := rpc_error_classification DbAvail.up TodoStore.empty
  exact ⟨h.2.1 _ rfl, h.2.2.1 _ rfl,
         h.2.2.2 _ "item.nope" _ rfl (by decide) rfl⟩

/-- With the store down, a handler invocation either faults with exactly
the driver detail or yields an outcome independent of it. -/
theorem runMethod_down_shape (m : String) (p : Option Json) (st : TodoStore)
    (d1 d2 : String) :
    (runMethod m p (DbAvail.down d1) st = HandlerResult.fault d1 ∧
     runMethod m p (DbAvail.down d2) st = HandlerResult.fault d2) ∨
    runMethod m p (DbAvail.down d1) st = runMethod m p (DbAvail.down d2) st := by
  unfold runMethod
  by_cases h1 : m = "mcp.discover"
  · rw [if_pos h1, if_pos h1]; right; rfl
  · rw [if_neg h1, if_neg h1]
    by_cases h2 : m = "todo.list"
    · rw [if_pos h2, if_pos h2]; left; exact ⟨rfl, rfl⟩
    · rw [if_neg h2, if_neg h2]
      by_cases h3 : m = "todo.add"
      · rw [if_pos h3, if_pos h3]
        cases hc : todoAddCheck p
        · right; rfl
        · left; exact ⟨rfl, rfl⟩
      · rw [if_neg h3, if_neg h3]
        by_cases h4 : m = "todo.remove"
        · rw [if_pos h4, if_pos h4]
          cases hc : todoRemoveCheck p
          · right; rfl
          · left; exact ⟨rfl, rfl⟩
        · rw [if_neg h4, if_neg h4]; right; rfl

/-- C3: while the store is down, the reply to a dispatched request never
depends on the internal fault detail (so none of it can reach the caller),
and whenever the invoked handler raises a non-RPC fault on an identified
request, the dispatcher answers HTTP 200 with the fixed generic internal
error (-32603), leaving the store unchanged. -/
theorem dispatch_faults_folded (j : Json) (st : TodoStore) :
    (∀ d1 d2 : String,
      dispatchObj j (DbAvail.down d1) st = dispatchObj j (DbAvail.down d2) st) ∧
    (∀ m i d, shapedMethod j = some m → getId j = some i →
      runMethod m (member j "params") (DbAvail.down d) st
        = HandlerResult.fault d →
      dispatchObj j (DbAvail.down d) st
        = (⟨200, some ⟨i, none, some internalError⟩⟩, st)) := by
  constructor
  · intro d1 d2
    unfold dispatchObj
    cases hs : shapedMethod j with
    | none => rfl
    | some m =>
      dsimp only
      rcases runMethod_down_shape m (member j "params") st d1 d2 with
        ⟨hf1, hf2⟩ | heq
      · rw [hf1, hf2]
        cases getId j <;> rfl
      · rw [heq]
  · intro m i d hm hid hrun
    unfold dispatchObj
    rw [hm]
    dsimp only
    rw [hid, hrun]

/-- C3 witness: with the store down, a `todo.list` request gets the fixed
internal-error envelope whatever the driver detail says. -/
theorem dispatch_faults_folded_witness :
    dispatchObj (Json.obj [("jsonrpc", Json.str "2.0"),
        ("method", Json.str "todo.list"), ("id", Json.num 2)])
        (DbAvail.down "connect ECONNREFUSED 127.0.0.1:5432") TodoStore.empty
      = dispatchObj (Json.obj [("jsonrpc", Json.str "2.0"),
          ("method", Json.str "todo.list"), ("id", Json.num 2)])
          (DbAvail.down "password authentication failed") TodoStore.empty ∧
    dispatchObj (Json.obj [("jsonrpc", Json.str "2.0"),
        ("method", Json.str "todo.list"), ("id", Json.num 2)])
        (DbAvail.down "connect ECONNREFUSED 127.0.0.1:5432") TodoStore.empty
      = (⟨200, some ⟨RpcId.num 2, none, some internalError⟩⟩,
         TodoStore.empty) := by
  have h := dispatch_faults_folded (Json.obj [("jsonrpc", Json.str "2.0"),
    ("method", Json.str "todo.list"), ("id", Json.num 2)]) TodoStore.empty
  exact ⟨h.1 _ _, h.2 "todo.list" (RpcId.num 2)
    "connect ECONNREFUSED 127.0.0.1:5432" rfl rfl rfl⟩

/-- C7: a well-shaped request without a usable id (a notification) gets a
bodyless 204 acknowledgement regardless of the handler outcome, and the
handler still runs with full effect: on success the dispatcher keeps the
handler's updated store. -/
theorem notification_silent_but_effective (j : Json) (m : String)
    (db : DbAvail) (st : TodoStore)
    (hm : shapedMethod j = some m) (hid : getId j = none) :
    (dispatchObj j db st).fst = ⟨204, none⟩ ∧
    (∀ v st2, runMethod m (member j "params") db st = HandlerResult.ok v st2 →
      (dispatchObj j db st).snd = st2) := by
  unfold dispatchObj
  rw [hm]
  dsimp only
  rw [hid]
  constructor
  · cases runMethod m (member j "params") db st <;> rfl
  · intro v st2 hrun
    rw [hrun]

/-- C7 witness: a `todo.add` notification answers 204 with no body while
the created item shows up in a subsequent listing. -/
theorem notification_silent_but_effective_witness :
    (dispatchObj (Json.obj [("jsonrpc", Json.str "2.0"),
        ("method", Json.str "todo.add"),
        ("params", Json.obj [("text", Json.str "note")])])
        DbAvail.up TodoStore.empty).fst = ⟨204, none⟩ ∧
    todoList (dispatchObj (Json.obj [("jsonrpc", Json.str "2.0"),
        ("method", Json.str "todo.add"),
        ("params", Json.obj [("text", Json.str "note")])])
        DbAvail.up TodoStore.empty).snd = [⟨1, "note", false, 0⟩] := by
  have h := notification_silent_but_effective
    (Json.obj [("jsonrpc", Json.str "2.0"), ("method", Json.str "todo.add"),
      ("params", Json.obj [("text", Json.str "note")])])
    "todo.add" DbAvail.up TodoStore.empty rfl rfl
  refine ⟨h.1, ?_⟩
  rw [h.2 (itemToJson ⟨1, "note", false, 0⟩) ⟨[⟨1, "note", false, 0⟩], 2, 1⟩ rfl]
  rfl

/-- C6 witness: on a two-row store, the listing is the rows in creation
order and removing row 1 leaves exactly row 2 listed. -/
theorem todo_list_correct_witness :
    todoList ⟨[⟨1, "a", false, 0⟩, ⟨2, "b", false, 1⟩], 3, 2⟩
      = [⟨1, "a", false, 0⟩, ⟨2, "b", false, 1⟩] ∧
    Item.mk 1 "a" false 0 ∉ todoList ⟨[⟨2, "b", false, 1⟩], 3, 2⟩ := by
  have hwf : StoreWF ⟨[⟨1, "a", false, 0⟩, ⟨2, "b", false, 1⟩], 3, 2⟩ := by
    refine ⟨?_, ?_, ?_⟩ <;> simp
  have h := todo_list_correct ⟨[⟨1, "a", false, 0⟩, ⟨2, "b", false, 1⟩], 3, 2⟩ hwf
  have hres := h.2.2 (some (Json.obj [("id", Json.num 1)]))
    ⟨1, "a", false, 0⟩ ⟨[⟨2, "b", false, 1⟩], 3, 2⟩ rfl
  exact ⟨h.1, hres.2.1⟩

/-- C1: when the JWT gate resolves no identity (missing, malformed, forged
or expired credential, or no credential at all), the `/rpc` endpoint
answers a transport-level 401 with no body — so no RPC envelope of any
kind, ParseError and InvalidRequest included — and the store is untouched,
for every payload (unparseable, malformed or well-formed alike) and any
store availability: the dispatcher never runs. -/
theorem unauthenticated_rejected_before_dispatch (users : List UserRow)
    (secret : String) (now : Nat) (tok : Option JwtToken)
    (h : jwtStrategy users secret now tok = none)
    (body : RawBody) (db : DbAvail) (st : TodoStore) :
    rpcEndpoint users secret now tok body db st = (⟨401, none⟩, st) := by
  unfold rpcEndpoint
  rw [h]

/-- C1 witness: a missing token with an unparseable body, a forged
signature with a well-formed `todo.add` request, and an expired token with
a malformed array body all get the bare 401 and leave the store as it
was. -/
theorem unauthenticated_rejected_witness :
    rpcEndpoint [⟨1, "testuser", "H"⟩] "secret" 0 none RawBody.invalid
      DbAvail.up TodoStore.empty = (⟨401, none⟩, TodoStore.empty) ∧
    rpcEndpoint [⟨1, "testuser", "H"⟩] "secret" 0
      (some ⟨⟨1, "testuser"⟩, 10, "forged"⟩)
      (RawBody.parsed (Json.obj [("jsonrpc", Json.str "2.0"),
        ("method", Json.str "todo.add"),
        ("params", Json.obj [("text", Json.str "x")]), ("id", Json.num 1)]))
      DbAvail.up TodoStore.empty = (⟨401, none⟩, TodoStore.empty) ∧
    rpcEndpoint [⟨1, "testuser", "H"⟩] "secret" 20
      (some ⟨⟨1, "testuser"⟩, 10, "secret"⟩)
      (RawBody.parsed (Json.arr [])) DbAvail.up TodoStore.empty
      = (⟨401, none⟩, TodoStore.empty) :=
  ⟨unauthenticated_rejected_before_dispatch [⟨1, "testuser", "H"⟩] "secret" 0
      none rfl RawBody.invalid DbAvail.up TodoStore.empty,
   unauthenticated_rejected_before_dispatch [⟨1, "testuser", "H"⟩] "secret" 0
      (some ⟨⟨1, "testuser"⟩, 10, "forged"⟩) (by decide)
      (RawBody.parsed (Json.obj [("jsonrpc", Json.str "2.0"),
        ("method", Json.str "todo.add"),
        ("params", Json.obj [("text", Json.str "x")]), ("id", Json.num 1)]))
      DbAvail.up TodoStore.empty,
   unauthenticated_rejected_before_dispatch [⟨1, "testuser", "H"⟩] "secret" 20
      (some ⟨⟨1, "testuser"⟩, 10, "secret"⟩) (by decide)
      (RawBody.parsed (Json.arr [])) DbAvail.up TodoStore.empty⟩

/-- C8 counterexample: with an empty users table, a token whose signature
verifies and which is unexpired is nonetheless rejected by the code (the
strategy's store lookup finds no user), while the claim's stateless
criterion accepts it — acceptance depends on server-side store state
beyond the signing key. -/
theorem token_acceptance_not_stateless :
    statelessAccepts (some ⟨⟨1, "testuser"⟩, 10, "secret"⟩) "secret" 0 = true ∧
    jwtStrategy [] "secret" 0 (some ⟨⟨1, "testuser"⟩, 10, "secret"⟩) = none :=
  ⟨rfl, rfl⟩

/-- C8 (amended): a presented bearer token is accepted exactly when its
signature verifies against the configured key, it is unexpired at
verification time, and the user id it names still exists in the users
table; no session state is involved — acceptance is a function of token,
key, clock and users table only, and an absent token is always rejected. -/
theorem token_acceptance_characterization (users : List UserRow)
    (secret : String) (now : Nat) (t : JwtToken) :
    (jwtStrategy users secret now (some t)).isSome
      = (verifyJwt t secret now
          && (findUserById users t.payload.userId).isSome) ∧
    jwtStrategy users secret now none = none := by
  refine ⟨?_, rfl⟩
  unfold jwtStrategy
  dsimp only
  by_cases hv : verifyJwt t secret now = true
  · rw [if_pos hv, hv]
    cases findUserById users t.payload.userId <;> rfl
  · rw [if_neg hv]
    rw [Bool.not_eq_true] at hv
    rw [hv]
    rfl

/-- C9: an unknown-username login failure and a wrong-password login
failure produce observably identical replies: both HTTP 401 carrying the
same failure message and no user payload, so the response content cannot
reveal whether the username exists. -/
theorem login_failures_indistinguishable (users : List UserRow)
    (compare : String → String → Bool) (u1 p1 u2 p2 : String) (r : UserRow)
    (h1 : findUserByName users u1 = none)
    (h2 : findUserByName users u2 = some r)
    (h3 : compare p2 r.passwordHash = false) :
    loginRoute users compare u1 p1 = loginRoute users compare u2 p2 ∧
    loginRoute users compare u1 p1 = ⟨401, loginFailMsg, none⟩ := by
  unfold loginRoute localStrategy
  rw [h1, h2]
  dsimp only
  rw [h3]
  exact ⟨rfl, rfl⟩

/-- C9 witness: against a table holding only `testuser`, the replies to an
unknown username and to `testuser` with a wrong password coincide and are
the bare 401 failure. -/
theorem login_failures_indistinguishable_witness :
    loginRoute [⟨1, "testuser", "HASH"⟩] (fun p h => p == h)
        "nosuchuser" "password123"
      = loginRoute [⟨1, "testuser", "HASH"⟩] (fun p h => p == h)
        "testuser" "wrongpass" ∧
    loginRoute [⟨1, "testuser", "HASH"⟩] (fun p h => p == h)
        "nosuchuser" "password123"
      = ⟨401, loginFailMsg, none⟩ :=
  login_failures_indistinguishable [⟨1, "testuser", "HASH"⟩]
    (fun p h => p == h) "nosuchuser" "password123" "testuser" "wrongpass"
    ⟨1, "testuser", "HASH"⟩ rfl rfl rfl

/-- C10 (the code violates the claim): a first schema run on an empty
database creates the tables, but running the statements again after a row
was stored empties the `todos` table — the leading
`DROP TABLE IF EXISTS ... CASCADE` statements make a re-run destructive,
not idempotent, and the previously stored row is lost. -/
theorem ensure_schema_rerun_destroys_rows :
    ensureSchema ⟨none, none⟩ = ⟨some [], some []⟩ ∧
    ensureSchema ⟨some [⟨1, "buy milk", false, 0⟩], some []⟩
      = ⟨some [], some []⟩ ∧
    (ensureSchema ⟨some [⟨1, "buy milk", false, 0⟩], some []⟩).todosTable
      ≠ some [⟨1, "buy milk", false, 0⟩] := by
  refine ⟨rfl, rfl, ?_⟩
  intro h
  rw [show (ensureSchema ⟨some [⟨1, "buy milk", false, 0⟩],
      some []⟩).todosTable = some [] from rfl] at h
  simp at h

end ToyMCP
